import Mathlib

/-!
Shallow embedding of `alexozer/backuper` (`src/main.rs`), a personal backup
orchestrator, together with theorems about its core functions: the duration
formatter, exclude-flag generation, repository-credential derivation, the
command-runner builder, the task executor, the WSL allow-list update, and the
top-level `do_backup`/`main` control flow.

External effects (process spawning, clock, environment variables, SMTP) are
modelled as explicit inputs: the environment is a function `String → Option String`,
each task's operation outcome and measured duration are fields of a `TaskSpec`,
and a spawned child's behaviour is a `SpawnOutcome` record.
-/

namespace Backuper

/-- Model of Rust `std::time::Duration`: whole seconds plus a sub-second
nanosecond component.  `pretty_duration` in the source calls `as_secs`,
which returns only the whole-second part. -/
structure Duration where
  secs : Nat
  nanos : Nat
deriving DecidableEq, Repr

/-- Rust `Duration::as_secs`: the whole-second part, truncating sub-second
precision. -/
def Duration.as_secs (d : Duration) : Nat := d.secs

/-- Seconds component computed in `pretty_duration`: `duration_sec % minute`. -/
def duration_seconds (d : Duration) : Nat := d.as_secs % 60

/-- Minutes component computed in `pretty_duration`: `duration_sec % hour / minute`. -/
def duration_minutes (d : Duration) : Nat := d.as_secs % (60 * 60) / 60

/-- Hours component computed in `pretty_duration`: `duration_sec % day / hour`. -/
def duration_hours (d : Duration) : Nat := d.as_secs % (60 * 60 * 24) / (60 * 60)

/-- Days component computed in `pretty_duration`: `duration_sec / day`. -/
def duration_days (d : Duration) : Nat := d.as_secs / (60 * 60 * 24)

/-- Embedding of `fn pretty_duration(duration: Duration) -> String`
(src/main.rs:85-102): unit breakdown of the whole-second count, with the
four-way `match` on `(days, hours, minutes, seconds)` dropping leading zero
units. -/
def pretty_duration (d : Duration) : String :=
  let seconds := duration_seconds d
  let minutes := duration_minutes d
  let hours := duration_hours d
  let days := duration_days d
  match days, hours, minutes, seconds with
  | 0, 0, 0, _ => Nat.repr seconds ++ "sec"
  | 0, 0, _, _ => Nat.repr minutes ++ "min " ++ Nat.repr seconds ++ "sec"
  | 0, _, _, _ =>
      Nat.repr hours ++ "hr " ++ Nat.repr minutes ++ "min " ++ Nat.repr seconds ++ "sec"
  | _, _, _, _ =>
      Nat.repr days ++ "d " ++ Nat.repr hours ++ "hr " ++ Nat.repr minutes ++ "min "
        ++ Nat.repr seconds ++ "sec"

/-- Embedding of `fn gen_exclude_flags(patterns: &[&str]) -> Vec<&str>`
(src/main.rs:104-106): `patterns.iter().flat_map(|p| ["--exclude", p]).collect()`. -/
def gen_exclude_flags (patterns : List String) : List String :=
  (patterns.map (fun p => ["--exclude", p])).flatten

/-- The static `EXCLUDE_PATTERNS` table (src/main.rs:49-58). -/
def EXCLUDE_PATTERNS : List String :=
  ["node_modules/**", ".cache/**", ".vscode/**", ".npm/**", ".vscode-server/**",
   "*.photoslibrary", ".DS_Store", "build*/**"]

/-- Embedding of `enum BackupDir` (src/main.rs:17-20): a backup target is
either relative to the current user's home directory or an absolute path. -/
inductive BackupDir where
  | Home : String → BackupDir
  | Root : String → BackupDir
deriving DecidableEq, Repr

/-- `PathBuf::push` with a relative component, as used in
`backup_dirs_to_strings`: append a path separator and the component.
(All `Home` entries in the static tables are relative paths.) -/
def push_path (base rel : String) : String := base ++ "/" ++ rel

/-- Embedding of `fn backup_dirs_to_strings` (src/main.rs:71-83).  The ambient
home directory is an explicit input: `none` models `homedir::my_home()`
failing or returning `None` (the code then aborts with
"Failed to get home dir").  The Rust `collect::<Result<Vec<_>>>`
short-circuits at the first error, so no partial list is ever produced. -/
def backup_dirs_to_strings (home : Option String) :
    List BackupDir → Except String (List String)
  | [] => Except.ok []
  | BackupDir.Home p :: rest =>
      match home with
      | none => Except.error "Failed to get home dir"
      | some h => (backup_dirs_to_strings home rest).map (fun l => push_path h p :: l)
  | BackupDir.Root p :: rest =>
      (backup_dirs_to_strings home rest).map (fun l => p :: l)

/-- Embedding of `struct ResticConfig` (src/main.rs:64-69). -/
structure ResticConfig where
  restic_repository : String
  restic_password : String
  aws_access_key_id : Option String
  aws_secret_access_key : Option String
deriving DecidableEq, Repr

/-- Embedding of `fn restic_config_to_env` (src/main.rs:237-249): the base
repository/password pairs, then — independently — the AWS key id and the AWS
secret, each pushed only when present. -/
def restic_config_to_env (config : ResticConfig) : List (String × String) :=
  [("RESTIC_REPOSITORY", config.restic_repository),
   ("RESTIC_PASSWORD", config.restic_password)]
    ++ (match config.aws_access_key_id with
        | some key_id => [("AWS_ACCESS_KEY_ID", key_id)]
        | none => [])
    ++ (match config.aws_secret_access_key with
        | some secret => [("AWS_SECRET_ACCESS_KEY", secret)]
        | none => [])

/-- Embedding of `struct ShBuilder` (src/main.rs:112-117). -/
structure ShBuilder where
  cmd : List String
  env : List (String × String)
  input : String
  check : Bool
deriving DecidableEq, Repr

/-- Embedding of `ShBuilder::new` (src/main.rs:120-127): empty env, empty
stdin payload, failure-checking enabled by default. -/
def ShBuilder.new (cmd : List String) : ShBuilder :=
  ⟨cmd, [], "", true⟩

/-- Embedding of `fn sh` (src/main.rs:108-110). -/
def sh (cmd : List String) : ShBuilder := ShBuilder.new cmd

/-- Builder setter `ShBuilder::env` (src/main.rs:129-132). -/
def ShBuilder.with_env (b : ShBuilder) (env : List (String × String)) : ShBuilder :=
  { b with env := env }

/-- Builder setter `ShBuilder::input` (src/main.rs:134-137). -/
def ShBuilder.with_input (b : ShBuilder) (input : String) : ShBuilder :=
  { b with input := input }

/-- Builder setter `ShBuilder::check` (src/main.rs:139-142). -/
def ShBuilder.with_check (b : ShBuilder) (check : Bool) : ShBuilder :=
  { b with check := check }

/-- The external world's response to one spawned command, an explicit input to
the `ShBuilder.run` model: whether `Command::spawn` succeeds, whether the
stdin handle is available and the payload write succeeds, the child's exit
status, and its captured stderr (with a flag for whether the raw stderr bytes
are valid UTF-8, since the code decodes them with `String::from_utf8`). -/
structure SpawnOutcome where
  spawn_ok : Bool
  stdin_ok : Bool
  exit_success : Bool
  stderr_is_utf8 : Bool
  stderr : String
deriving DecidableEq, Repr

/-- Embedding of `ShBuilder::run` (src/main.rs:144-174).  The code indexes
`self.cmd[0]` and `self.cmd[1..]` unconditionally; on an empty argv that
indexing is out of bounds, a panic, modelled as `none`.  Otherwise the result
mirrors the `?`-propagation of spawn failure, stdin failure, and — only when
`check` is set and the exit status is non-zero — the stderr-decoding step and
the `CommandFailed` error carrying the stderr text. -/
def ShBuilder.run (b : ShBuilder) (w : SpawnOutcome) : Option (Except String Unit) :=
  match b.cmd with
  | [] => none
  | _ :: _ =>
    if w.spawn_ok = false then some (Except.error "spawn failed")
    else if w.stdin_ok = false then some (Except.error "Failed to get stdin")
    else if b.check && !w.exit_success then
      if w.stderr_is_utf8 then some (Except.error w.stderr)
      else some (Except.error "invalid utf-8 sequence")
    else some (Except.ok ())

/-- The updated `WSLENV` allow-list value computed in `backup_wsl`
(src/main.rs:272-281): the existing value (`env::var("WSLENV")`, defaulting to
the empty string), then a colon, then the names of the derived credential env
pairs joined by colons. -/
def update_wslenv (wslenv_var : Option String) (config : ResticConfig) : String :=
  wslenv_var.getD "" ++ ":"
    ++ String.intercalate ":" ((restic_config_to_env config).map Prod.fst)

/-- One task as seen by `try_task`: its display name, the outcome of invoking
its operation once (`func()`), and the elapsed duration the clock measures for
it — outcome and duration are external inputs of the model. -/
structure TaskSpec where
  name : String
  dur : Duration
  result : Except String Unit
deriving Repr

/-- The error entry `format!("[{} in {pretty_dur}] {}", name, e)` that
`try_task` pushes for a failed task (src/main.rs:218). -/
def task_error_entry (t : TaskSpec) (e : String) : String :=
  "[" ++ t.name ++ " in " ++ pretty_duration t.dur ++ "] " ++ e

/-- Embedding of `fn try_task` (src/main.rs:202-223): invoke the operation,
and on failure append the formatted entry to the shared error list; the error
is never propagated (the function returns the updated list, not a `Result`). -/
def try_task (t : TaskSpec) (error_list : List String) : List String :=
  match t.result with
  | Except.ok _ => error_list
  | Except.error e => error_list ++ [task_error_entry t e]

/-- A sequence of `try_task` invocations threading the shared error list, as
`do_backup_windows` / `do_backup_macos` perform (src/main.rs:304-350). -/
def run_tasks (tasks : List TaskSpec) (error_list : List String) : List String :=
  match tasks with
  | [] => error_list
  | t :: rest => run_tasks rest (try_task t error_list)

/-- `std::env::var` over an explicit environment (a map from variable name to
optional value): a missing variable yields `VarError::NotPresent`, whose
display text — what `anyhow` stringifies — is "environment variable not
found". -/
def env_var (environ : String → Option String) (name : String) : Except String String :=
  match environ name with
  | some v => Except.ok v
  | none => Except.error "environment variable not found"

/-- The `any_to_cloud_config_func` closure inside `do_backup`
(src/main.rs:353-360): load the four required variables, wrapping both AWS
credentials in `Some`. -/
def any_to_cloud_config (environ : String → Option String) : Except String ResticConfig := do
  let repo ← env_var environ "BACKUPER_RESTIC_REPOSITORY"
  let password ← env_var environ "BACKUPER_RESTIC_PASSWORD"
  let key_id ← env_var environ "BACKUPER_AWS_ACCESS_KEY_ID"
  let secret ← env_var environ "BACKUPER_AWS_SECRET_ACCESS_KEY"
  Except.ok ⟨repo, password, some key_id, some secret⟩

/-- Embedding of `fn do_backup` (src/main.rs:352-373): load the cloud config
first; on failure return a singleton error list without starting any task;
otherwise run the OS-specific task sequence (abstracted as `tasks`, since
which tasks run and their outcomes depend on the external world) against a
fresh error list. -/
def do_backup (environ : String → Option String) (tasks : List TaskSpec) : List String :=
  match any_to_cloud_config environ with
  | Except.error e => [e]
  | Except.ok _ => run_tasks tasks []

/-- The notification subject and body built in `main` (src/main.rs:421-431)
from the OS label, the total run duration, and the final error list. -/
def notification (is_windows : Bool) (dur : Duration) (errors : List String) :
    String × String :=
  let os_pretty := if is_windows then "Windows" else "macOS"
  let dur_pretty := pretty_duration dur
  if errors.isEmpty then
    ("Backup " ++ os_pretty ++ " succeeded",
     "Completed in " ++ dur_pretty ++ "\n\nHope you're having a nice day :)")
  else
    let error_word := if errors.length == 1 then "error" else "errors"
    ("Backup " ++ os_pretty ++ " failed! " ++ Nat.repr errors.length ++ " " ++ error_word,
     "Completed in " ++ dur_pretty ++ "\n\n" ++ String.intercalate "\n" errors)

/-- Embedding of `fn main` (src/main.rs:401-435), returning the process exit
code (an `anyhow` `main` exits 1 on `Err`, 0 on `Ok`) and the notification
that was delivered, if any.  External inputs: the first CLI argument, the
environment, the task outcomes, the measured total duration, and the outcome
of `notify` on a given subject and body (SMTP delivery). -/
def main_model (os_arg : Option String) (environ : String → Option String)
    (tasks : List TaskSpec) (dur : Duration)
    (notify_result : String → String → Except String Unit) :
    Nat × Option (String × String) :=
  match os_arg with
  | none => (1, none)
  | some os =>
    if os != "windows" && os != "macos" then (1, none)
    else
      let is_windows := os == "windows"
      let errors := do_backup environ tasks
      let nt := notification is_windows dur errors
      match notify_result nt.1 nt.2 with
      | Except.ok _ => (0, some nt)
      | Except.error _ => (1, none)

/-- The restic argv built in `backup_filesystem_to` (src/main.rs:256-258):
`["restic", "backup", "--files-from", "-"]` extended by the extra restic args
and the exclude flags. -/
def restic_args (extra_restic_args : List String) : List String :=
  ["restic", "backup", "--files-from", "-"] ++ extra_restic_args
    ++ gen_exclude_flags EXCLUDE_PATTERNS

/-- The WSL restic argv built in `backup_wsl` (src/main.rs:287-297). -/
def wsl_restic_args : List String :=
  ["wsl.exe", "--shell-type", "none", "/home/linuxbrew/.linuxbrew/bin/restic",
   "backup", "/home/alex", "--tag", "WSL"]
    ++ gen_exclude_flags EXCLUDE_PATTERNS

/-- Every argv the program passes to `sh`: the four upgrade commands of
`do_windows_upgrades` (src/main.rs:226-229), the `brew upgrade` of
`do_macos_upgrades` (src/main.rs:234), the restic argv of
`backup_filesystem_to` (parameterized by its extra args), and the
`killall` and nested-restic argvs of `backup_wsl` (src/main.rs:270,299). -/
def program_argvs (extra_restic_args : List String) : List (List String) :=
  [["choco", "upgrade", "all"],
   ["wsl.exe", "sudo", "apt", "update"],
   ["wsl.exe", "sudo", "apt", "upgrade", "-y"],
   ["wsl.exe", "/home/linuxbrew/.linuxbrew/bin/brew", "upgrade"],
   ["brew", "upgrade"],
   restic_args extra_restic_args,
   ["wsl.exe", "killall", "restic"],
   wsl_restic_args]

/-- Resolution of one `BackupDir` when the home directory is available, the
per-element behaviour of `backup_dirs_to_strings`. -/
def resolve_backup_dir (h : String) : BackupDir → String
  | BackupDir.Home p => push_path h p
  | BackupDir.Root p => p

/-- Whether a task's operation failed. -/
def is_failed (t : TaskSpec) : Bool :=
  match t.result with
  | Except.ok _ => false
  | Except.error _ => true

/-- The entries a task sequence contributes to the error list: one formatted
entry per failed task, in order. -/
def failing_entries : List TaskSpec → List String
  | [] => []
  | t :: rest =>
      (match t.result with
       | Except.ok _ => []
       | Except.error e => [task_error_entry t e]) ++ failing_entries rest

lemma run_tasks_eq_failing_entries (tasks : List TaskSpec) (init : List String) :
    run_tasks tasks init = init ++ failing_entries tasks := by
  induction tasks generalizing init with
  | nil => simp [run_tasks, failing_entries]
  | cons t rest ih =>
      cases h : t.result <;>
        simp [run_tasks, failing_entries, try_task, h, ih]

lemma failing_entries_append (xs ys : List TaskSpec) :
    failing_entries (xs ++ ys) = failing_entries xs ++ failing_entries ys := by
  induction xs with
  | nil => simp [failing_entries]
  | cons t rest ih => cases h : t.result <;> simp [failing_entries, h, ih]

lemma failing_entries_all_ok (tasks : List TaskSpec)
    (h : ∀ u ∈ tasks, u.result = Except.ok ()) : failing_entries tasks = [] := by
  induction tasks with
  | nil => rfl
  | cons t rest ih =>
      have ht := h t (List.mem_cons_self t rest)
      simp [failing_entries, ht]
      exact ih fun u hu => h u (List.mem_cons_of_mem t hu)

lemma failing_entries_length (tasks : List TaskSpec) :
    (failing_entries tasks).length = (tasks.filter is_failed).length := by
  induction tasks with
  | nil => rfl
  | cons t rest ih =>
      cases h : t.result <;> simp [failing_entries, List.filter, is_failed, h, ih]

/-- Claim C6: `pretty_duration` is a pure total function of the whole-second
count (sub-second precision truncated: durations with equal `secs` format
identically), maps 0s to "0sec", 61s to "1min 1sec", 3661s to
"1hr 1min 1sec", 90000s to "1d 1hr 0min 0sec", and its printed unit
breakdown (days, hours, minutes, seconds) recomposes to exactly the
whole-second count for every duration. -/
theorem pretty_duration_spec :
    pretty_duration ⟨0, 0⟩ = "0sec" ∧
    pretty_duration ⟨61, 0⟩ = "1min 1sec" ∧
    pretty_duration ⟨3661, 0⟩ = "1hr 1min 1sec" ∧
    pretty_duration ⟨90000, 0⟩ = "1d 1hr 0min 0sec" ∧
    (∀ d : Duration,
      duration_days d * (60 * 60 * 24) + duration_hours d * (60 * 60)
        + duration_minutes d * 60 + duration_seconds d = d.as_secs) ∧
    (∀ d e : Duration, d.secs = e.secs → pretty_duration d = pretty_duration e) := by
  refine ⟨by decide, by decide, by decide, by decide, ?_, ?_⟩
  · intro d
    unfold duration_days duration_hours duration_minutes duration_seconds Duration.as_secs
    have h1 := Nat.div_add_mod d.secs 86400
    have h2 := Nat.div_add_mod (d.secs % 86400) 3600
    have h3 := Nat.div_add_mod (d.secs % 3600) 60
    have h4 : d.secs % 86400 % 3600 = d.secs % 3600 :=
      Nat.mod_mod_of_dvd d.secs (by norm_num)
    have h5 : d.secs % 3600 % 60 = d.secs % 60 :=
      Nat.mod_mod_of_dvd d.secs (by norm_num)
    omega
  · intro d e h
    unfold pretty_duration duration_days duration_hours duration_minutes
      duration_seconds Duration.as_secs
    rw [h]

/-- Witness for C6 at a concrete input: two durations sharing the same
whole-second count format identically. -/
theorem pretty_duration_spec_witness :
    pretty_duration ⟨61, 5⟩ = pretty_duration ⟨61, 999999999⟩ :=
  pretty_duration_spec.2.2.2.2.2 ⟨61, 5⟩ ⟨61, 999999999⟩ rfl

/-- Claim C7: `gen_exclude_flags` returns a flat list of exactly twice the
input length, interleaving the "--exclude" token before each pattern in input
order; on `[a, b, c]` it yields exactly
`[--exclude, a, --exclude, b, --exclude, c]`. -/
theorem gen_exclude_flags_spec :
    (∀ patterns : List String,
      (gen_exclude_flags patterns).length = 2 * patterns.length) ∧
    (∀ (p : String) (patterns : List String),
      gen_exclude_flags (p :: patterns) = "--exclude" :: p :: gen_exclude_flags patterns) ∧
    gen_exclude_flags ["a", "b", "c"]
      = ["--exclude", "a", "--exclude", "b", "--exclude", "c"] := by
  refine ⟨?_, fun p patterns => rfl, by decide⟩
  intro patterns
  induction patterns with
  | nil => rfl
  | cons p rest ih => simp [gen_exclude_flags] at ih ⊢; omega

/-- Counterexample to claim C3: a config with the AWS key id present but the
secret absent derives a 3-pair env list, not the claimed 2-pair list. -/
theorem restic_config_to_env_partial_counterexample :
    (restic_config_to_env ⟨"repo", "pass", some "key", none⟩).length = 3 ∧
    ¬ (restic_config_to_env ⟨"repo", "pass", some "key", none⟩).length = 2 := by
  decide

/-- Claim C3 (amended): the derived env list always starts with the
repository-URI and passphrase pairs; with no cloud credentials its length is
exactly 2, with both it is exactly 4, and with exactly one of the two cloud
credentials present it is exactly 3 — each credential is appended
independently, not all-or-nothing. -/
theorem restic_config_to_env_lengths (config : ResticConfig) :
    (restic_config_to_env config).take 2
      = [("RESTIC_REPOSITORY", config.restic_repository),
         ("RESTIC_PASSWORD", config.restic_password)] ∧
    (config.aws_access_key_id = none → config.aws_secret_access_key = none →
      (restic_config_to_env config).length = 2) ∧
    (∀ k s, config.aws_access_key_id = some k → config.aws_secret_access_key = some s →
      (restic_config_to_env config).length = 4) ∧
    (∀ k, config.aws_access_key_id = some k → config.aws_secret_access_key = none →
      (restic_config_to_env config).length = 3) ∧
    (∀ s, config.aws_access_key_id = none → config.aws_secret_access_key = some s →
      (restic_config_to_env config).length = 3) := by
  obtain ⟨r, p, k, s⟩ := config
  cases k <;> cases s <;> simp [restic_config_to_env]

/-- Witness for the amended C3 at concrete inputs: 2, 4, and 3 pairs. -/
theorem restic_config_to_env_lengths_witness :
    (restic_config_to_env ⟨"r", "p", none, none⟩).length = 2 ∧
    (restic_config_to_env ⟨"r", "p", some "k", some "s"⟩).length = 4 ∧
    (restic_config_to_env ⟨"r", "p", some "k", none⟩).length = 3 :=
  ⟨(restic_config_to_env_lengths ⟨"r", "p", none, none⟩).2.1 rfl rfl,
   (restic_config_to_env_lengths ⟨"r", "p", some "k", some "s"⟩).2.2.1 "k" "s" rfl rfl,
   (restic_config_to_env_lengths ⟨"r", "p", some "k", none⟩).2.2.2.1 "k" rfl rfl⟩

/-- Fields of a colon-separated string, for stating the allow-list claims. -/
def colon_fields (s : String) : List String :=
  (s.toList.splitOn ':').map List.asString

/-- Counterexample to claim C5: with existing allow-list "A:B" and a config
deriving the two base credential names, the updated allow-list value does
not contain the allow-list variable's own name "WSLENV" at all (the code
sets the `WSLENV` variable in the child environment but never appends the
name "WSLENV" to the value). -/
theorem update_wslenv_counterexample :
    (colon_fields (update_wslenv (some "A:B") ⟨"r", "p", none, none⟩)).count "WSLENV" = 0 ∧
    ¬ (colon_fields (update_wslenv (some "A:B") ⟨"r", "p", none, none⟩)).count "WSLENV" = 1 := by
  decide

/-- Claim C5 (amended): with existing allow-list "A:B" and credential
env-pair names RESTIC_REPOSITORY and RESTIC_PASSWORD, the updated allow-list
string is exactly "A:B:RESTIC_REPOSITORY:RESTIC_PASSWORD": its colon-separated
fields are A, B, and the two credential names, each exactly once (the field
list has no duplicates), and the allow-list variable's own name WSLENV is not
among them. -/
theorem update_wslenv_spec :
    update_wslenv (some "A:B") ⟨"r", "p", none, none⟩
      = "A:B:RESTIC_REPOSITORY:RESTIC_PASSWORD" ∧
    colon_fields (update_wslenv (some "A:B") ⟨"r", "p", none, none⟩)
      = ["A", "B", "RESTIC_REPOSITORY", "RESTIC_PASSWORD"] ∧
    (["A", "B", "RESTIC_REPOSITORY", "RESTIC_PASSWORD"] : List String).Nodup ∧
    "WSLENV" ∉ (["A", "B", "RESTIC_REPOSITORY", "RESTIC_PASSWORD"] : List String) := by
  refine ⟨by decide, by decide, by decide, by decide⟩

/-- Claim C2: for a task sequence in which exactly one task fails (every task
before and after it succeeds), running the whole sequence through `try_task`
leaves exactly one entry in the shared error list, formatted
"[name in duration] message"; the executor never propagates the error (every
task in the sequence is processed — the equation covers the tasks after the
failing one), and a successful task appends nothing to the list. -/
theorem try_task_isolation (pre post : List TaskSpec) (t : TaskSpec) (e : String)
    (hpre : ∀ u ∈ pre, u.result = Except.ok ())
    (hpost : ∀ u ∈ post, u.result = Except.ok ())
    (ht : t.result = Except.error e) :
    run_tasks (pre ++ t :: post) [] = [task_error_entry t e] ∧
    (∀ (u : TaskSpec) (init : List String),
      u.result = Except.ok () → try_task u init = init) := by
  constructor
  · rw [run_tasks_eq_failing_entries, failing_entries_append]
    rw [failing_entries_all_ok pre hpre]
    simp [failing_entries, ht, failing_entries_all_ok post hpost]
  · intro u init hu
    simp [try_task, hu]

/-- Witness for C2 at a concrete three-task sequence whose middle task fails. -/
theorem try_task_isolation_witness :
    run_tasks
      [⟨"Windows Upgrades", ⟨1, 0⟩, Except.ok ()⟩,
       ⟨"Backup WSL (Local)", ⟨2, 0⟩, Except.error "boom"⟩,
       ⟨"Backup Windows Filesystem (Local)", ⟨3, 0⟩, Except.ok ()⟩] []
      = [task_error_entry ⟨"Backup WSL (Local)", ⟨2, 0⟩, Except.error "boom"⟩ "boom"] :=
  (try_task_isolation
    [⟨"Windows Upgrades", ⟨1, 0⟩, Except.ok ()⟩]
    [⟨"Backup Windows Filesystem (Local)", ⟨3, 0⟩, Except.ok ()⟩]
    ⟨"Backup WSL (Local)", ⟨2, 0⟩, Except.error "boom"⟩ "boom"
    (by intro u hu; simp at hu; subst hu; rfl)
    (by intro u hu; simp at hu; subst hu; rfl)
    rfl).1

/-- Claim C8: with the home directory available, `backup_dirs_to_strings`
resolves every `Home` spec to the home directory joined with the relative
path and passes every `Root` spec through unchanged, preserving order; with
the home directory unavailable, if any `Home` spec is present the whole
resolution fails with the "Failed to get home dir" error and no partial list
is returned. -/
theorem backup_dirs_to_strings_spec :
    (∀ (h : String) (dirs : List BackupDir),
      backup_dirs_to_strings (some h) dirs
        = Except.ok (dirs.map (resolve_backup_dir h))) ∧
    (∀ dirs : List BackupDir, (∃ p, BackupDir.Home p ∈ dirs) →
      backup_dirs_to_strings none dirs = Except.error "Failed to get home dir") := by
  constructor
  · intro h dirs
    induction dirs with
    | nil => rfl
    | cons d rest ih =>
        cases d <;> simp [backup_dirs_to_strings, resolve_backup_dir, ih, Except.map]
  · intro dirs hex
    induction dirs with
    | nil => obtain ⟨p, hp⟩ := hex; cases hp
    | cons d rest ih =>
        cases d with
        | Home q => rfl
        | Root q =>
            obtain ⟨p, hp⟩ := hex
            rcases List.mem_cons.mp hp with heq | hmem
            · exact absurd heq (by simp)
            · simp [backup_dirs_to_strings, ih ⟨p, hmem⟩, Except.map]

/-- Witness for C8 at concrete inputs: resolution with a home directory, and
the atomic failure without one. -/
theorem backup_dirs_to_strings_spec_witness :
    backup_dirs_to_strings (some "/Users/alex")
        [BackupDir.Home "Documents", BackupDir.Root "C:\\tools"]
      = Except.ok ["/Users/alex/Documents", "C:\\tools"] ∧
    backup_dirs_to_strings none [BackupDir.Root "C:\\tools", BackupDir.Home "Documents"]
      = Except.error "Failed to get home dir" :=
  ⟨backup_dirs_to_strings_spec.1 "/Users/alex"
      [BackupDir.Home "Documents", BackupDir.Root "C:\\tools"],
   backup_dirs_to_strings_spec.2 [BackupDir.Root "C:\\tools", BackupDir.Home "Documents"]
      ⟨"Documents", by simp⟩⟩

/-- Claim C4: for a run that reaches the child's exit status (spawn and stdin
write succeeded) on a non-empty argv: the builder default enables failure
checking; with checking disabled any exit status (including non-zero) yields
success; with checking enabled and a non-zero exit status the call returns an
error carrying the child's captured stderr text (when the stderr bytes decode
as text, which is how the code obtains it). -/
theorem sh_run_check_policy (b : ShBuilder) (w : SpawnOutcome)
    (hcmd : b.cmd ≠ []) (hspawn : w.spawn_ok = true) (hstdin : w.stdin_ok = true) :
    (∀ cmd, (ShBuilder.new cmd).check = true) ∧
    (b.check = false → b.run w = some (Except.ok ())) ∧
    (b.check = true → w.exit_success = false → w.stderr_is_utf8 = true →
      b.run w = some (Except.error w.stderr)) := by
  refine ⟨fun cmd => rfl, ?_, ?_⟩
  · intro hcheck
    cases hb : b.cmd with
    | nil => exact absurd hb hcmd
    | cons c cs => simp [ShBuilder.run, hb, hspawn, hstdin, hcheck]
  · intro hcheck hexit hutf8
    cases hb : b.cmd with
    | nil => exact absurd hb hcmd
    | cons c cs => simp [ShBuilder.run, hb, hspawn, hstdin, hcheck, hexit, hutf8]

/-- Witness for C4 at concrete inputs: a check-disabled run with a failing
child succeeds; a check-enabled run with a failing child errors with the
child's stderr. -/
theorem sh_run_check_policy_witness :
    ShBuilder.run ((sh ["wsl.exe", "killall", "restic"]).with_check false)
        ⟨true, true, false, true, "no process found"⟩
      = some (Except.ok ()) ∧
    ShBuilder.run (sh ["brew", "upgrade"]) ⟨true, true, false, true, "brew exploded"⟩
      = some (Except.error "brew exploded") :=
  ⟨(sh_run_check_policy ((sh ["wsl.exe", "killall", "restic"]).with_check false)
      ⟨true, true, false, true, "no process found"⟩ (by simp [sh, ShBuilder.new,
        ShBuilder.with_check]) rfl rfl).2.1 rfl,
   (sh_run_check_policy (sh ["brew", "upgrade"])
      ⟨true, true, false, true, "brew exploded"⟩ (by simp [sh, ShBuilder.new]) rfl
      rfl).2.2 rfl rfl rfl⟩

/-- Claim C10: `ShBuilder.run` is well-defined exactly on non-empty argvs —
on an empty argv the `cmd[0]` indexing is out of bounds (a panic, modelled as
`none`), and on any non-empty argv the run produces a result; moreover every
argv the program passes to `sh` is non-empty (for any extra restic args). -/
theorem sh_run_nonempty_argv :
    (∀ (b : ShBuilder) (w : SpawnOutcome), (b.run w).isSome ↔ b.cmd ≠ []) ∧
    (∀ extra_restic_args : List String,
      ∀ argv ∈ program_argvs extra_restic_args, argv ≠ []) := by
  constructor
  · intro b w
    cases hb : b.cmd with
    | nil => simp [ShBuilder.run, hb]
    | cons c cs =>
        unfold ShBuilder.run
        rw [hb]
        split_ifs <;> simp
  · intro extra argv hmem
    fin_cases hmem <;> simp [restic_args, wsl_restic_args]

/-- Witness for C10 at concrete inputs: the run on an empty argv panics, the
run on a call-site argv is defined, and that argv is one the program builds. -/
theorem sh_run_nonempty_argv_witness :
    ¬ (ShBuilder.run (sh []) ⟨true, true, true, true, ""⟩).isSome ∧
    (ShBuilder.run (sh ["brew", "upgrade"]) ⟨true, true, true, true, ""⟩).isSome ∧
    (["brew", "upgrade"] : List String) ≠ [] :=
  ⟨fun h => (sh_run_nonempty_argv.1 (sh []) ⟨true, true, true, true, ""⟩).mp h rfl,
   (sh_run_nonempty_argv.1 (sh ["brew", "upgrade"]) ⟨true, true, true, true, ""⟩).mpr
     (by simp [sh, ShBuilder.new]),
   sh_run_nonempty_argv.2 [] ["brew", "upgrade"] (by simp [program_argvs])⟩

/-- Counterexample to claim C1: with every configuration variable missing, a
valid OS argument, and a successful notification delivery, the process exits
with code 0 (not non-zero) and a failure notification IS sent — the config
error travels through the ordinary error list rather than aborting the run. -/
theorem config_failure_counterexample :
    (main_model (some "macos") (fun _ => none) [] ⟨0, 0⟩ (fun _ _ => Except.ok ())).1
      = 0 ∧
    (main_model (some "macos") (fun _ => none) [] ⟨0, 0⟩ (fun _ _ => Except.ok ())).2
      = some ("Backup macOS failed! 1 error",
              "Completed in 0sec\n\nenvironment variable not found") := by
  constructor <;> rfl

/-- Claim C1 (amended): if loading the required configuration environment
variables fails, the run short-circuits before any task starts and the error
list is exactly the single configuration error; the process does not
terminate with a non-zero exit code and a notification is still sent — with a
valid OS argument and successful notification delivery, `main` exits 0 and
delivers the failure notification enumerating that one error. -/
theorem config_failure_short_circuits (environ : String → Option String)
    (tasks : List TaskSpec) (e : String) (os : String) (dur : Duration)
    (notify_result : String → String → Except String Unit)
    (hcfg : any_to_cloud_config environ = Except.error e)
    (hos : os = "windows" ∨ os = "macos")
    (hnr : ∀ s b, notify_result s b = Except.ok ()) :
    do_backup environ tasks = [e] ∧
    main_model (some os) environ tasks dur notify_result
      = (0, some (notification (os == "windows") dur [e])) := by
  have hdb : do_backup environ tasks = [e] := by simp [do_backup, hcfg]
  refine ⟨hdb, ?_⟩
  rcases hos with h | h <;> subst h <;>
    simp [main_model, hdb, hnr]

/-- Witness for the amended C1 at concrete inputs. -/
theorem config_failure_short_circuits_witness :
    do_backup (fun _ => none) [] = ["environment variable not found"] ∧
    main_model (some "macos") (fun _ => none) [] ⟨0, 0⟩ (fun _ _ => Except.ok ())
      = (0, some (notification ("macos" == "windows") ⟨0, 0⟩
          ["environment variable not found"])) :=
  config_failure_short_circuits (fun _ => none) [] "environment variable not found"
    "macos" ⟨0, 0⟩ (fun _ _ => Except.ok ()) rfl (Or.inr rfl) (fun _ _ => rfl)

/-- Claim C9: per-task failures never change the process exit code — when the
configuration loads and the notification is delivered, `main` exits 0
regardless of which tasks failed; the failures appear only in the delivered
notification, built from the final error list, whose length equals the number
of failed tasks. -/
theorem task_failures_not_fatal (environ : String → Option String)
    (tasks : List TaskSpec) (os : String) (dur : Duration)
    (notify_result : String → String → Except String Unit) (cfg : ResticConfig)
    (hcfg : any_to_cloud_config environ = Except.ok cfg)
    (hos : os = "windows" ∨ os = "macos")
    (hnr : ∀ s b, notify_result s b = Except.ok ()) :
    (main_model (some os) environ tasks dur notify_result).1 = 0 ∧
    (main_model (some os) environ tasks dur notify_result).2
      = some (notification (os == "windows") dur (run_tasks tasks [])) ∧
    (run_tasks tasks []).length = (tasks.filter is_failed).length := by
  have hdb : do_backup environ tasks = run_tasks tasks [] := by simp [do_backup, hcfg]
  have hlen : (run_tasks tasks []).length = (tasks.filter is_failed).length := by
    rw [run_tasks_eq_failing_entries]
    simpa using failing_entries_length tasks
  refine ⟨?_, ?_, hlen⟩ <;>
    rcases hos with h | h <;> subst h <;>
      simp [main_model, hdb, hnr]

/-- Witness for C9 at a concrete run: one upgrade task fails, two backup
tasks succeed; the exit code is 0 and the error list has length 1. -/
theorem task_failures_not_fatal_witness :
    (main_model (some "macos") (fun _ => some "v")
        [⟨"macOS Upgrades", ⟨1, 0⟩, Except.error "boom"⟩,
         ⟨"Backup macOS Filesystem", ⟨2, 0⟩, Except.ok ()⟩,
         ⟨"Backup macOS Filesystem", ⟨3, 0⟩, Except.ok ()⟩] ⟨6, 0⟩
        (fun _ _ => Except.ok ())).1 = 0 ∧
    (run_tasks
        [⟨"macOS Upgrades", ⟨1, 0⟩, Except.error "boom"⟩,
         ⟨"Backup macOS Filesystem", ⟨2, 0⟩, Except.ok ()⟩,
         ⟨"Backup macOS Filesystem", ⟨3, 0⟩, Except.ok ()⟩] []).length
      = (([⟨"macOS Upgrades", ⟨1, 0⟩, Except.error "boom"⟩,
           ⟨"Backup macOS Filesystem", ⟨2, 0⟩, Except.ok ()⟩,
           ⟨"Backup macOS Filesystem", ⟨3, 0⟩, Except.ok ()⟩] :
           List TaskSpec).filter is_failed).length :=
  ⟨(task_failures_not_fatal (fun _ => some "v")
      [⟨"macOS Upgrades", ⟨1, 0⟩, Except.error "boom"⟩,
       ⟨"Backup macOS Filesystem", ⟨2, 0⟩, Except.ok ()⟩,
       ⟨"Backup macOS Filesystem", ⟨3, 0⟩, Except.ok ()⟩] "macos" ⟨6, 0⟩
      (fun _ _ => Except.ok ()) ⟨"v", "v", some "v", some "v"⟩ rfl (Or.inr rfl)
      (fun _ _ => rfl)).1,
   (task_failures_not_fatal (fun _ => some "v")
      [⟨"macOS Upgrades", ⟨1, 0⟩, Except.error "boom"⟩,
       ⟨"Backup macOS Filesystem", ⟨2, 0⟩, Except.ok ()⟩,
       ⟨"Backup macOS Filesystem", ⟨3, 0⟩, Except.ok ()⟩] "macos" ⟨6, 0⟩
      (fun _ _ => Except.ok ()) ⟨"v", "v", some "v", some "v"⟩ rfl (Or.inr rfl)
      (fun _ _ => rfl)).2.2⟩

end Backuper
